import Mathlib

/-!
Verification of the document-processing core of the snap_ai repository.

The Python sources are shallowly embedded: dictionaries become association
lists over a `Json` value type, floats become exact rationals, fallible
code returns `Except`/`Option`, and the behaviour of the relevant Python
standard-library functions (`str.format`, `json.loads`, `str.strip`,
`re.search` for the one pattern the code uses) is modelled on the fragment
the code exercises.
-/

/-- JSON-ish values, the payloads of `extracted_data` dictionaries.
Numbers are modelled as integers: non-integral JSON numerals are outside
the modelled fragment (floating point is not embedded). -/
inductive Json where
  | null : Json
  | bool (b : Bool) : Json
  | num (n : Int) : Json
  | str (s : String) : Json
  | arr (xs : List Json) : Json
  | obj (fields : List (String × Json)) : Json

/-- A Python dict with string keys, as an ordered association list
(first occurrence of a key is its binding, as in a Python dict). -/
abbrev Dict := List (String × Json)

/-- Lookup of a key in a dict (Python `d[k]` / `k in d`). -/
def dLookup : Dict → String → Option Json
  | [], _ => none
  | (k, v) :: rest, key => if k = key then some v else dLookup rest key

/-- Python `d[k] = v`: replace the binding in place when the key exists,
append it otherwise (insertion order is preserved, as for a Python dict). -/
def dictSet : Dict → String → Json → Dict
  | [], key, v => [(key, v)]
  | (k, w) :: rest, key, v =>
      if k = key then (key, v) :: rest else (k, w) :: dictSet rest key v

/-- Python `k in d` for a dict. -/
def dHasKey (d : Dict) (key : String) : Bool :=
  d.any (fun p => p.1 = key)

/-- Python truthiness of a JSON-ish value (`if v:`): `None`, `False`, `0`,
`""`, `[]` and `\x7b\x7d` are falsy, everything else truthy. -/
def pyTruthy : Json → Bool
  | .null => false
  | .bool b => b
  | .num n => n ≠ 0
  | .str s => s ≠ ""
  | .arr xs => !xs.isEmpty
  | .obj fs => !fs.isEmpty

/-- Python `v == n` against an int literal: ints compare by value and
`True == 1`, `False == 0`; other values are not equal to an int. -/
def pyEqInt (j : Json) (n : Int) : Bool :=
  match j with
  | .num m => m = n
  | .bool b => (if b then (1 : Int) else 0) = n
  | _ => false

/-- Python `repr` of a JSON-ish value (as produced for parsed JSON data:
`None`/`True`/`False`, decimal integers, single-quoted strings, bracketed
lists, braced dicts). Quote/escape handling inside strings is modelled for
strings without quotes or backslashes, the only case the code exercises.
The fuel argument only establishes termination: every call site passes a
fuel that strictly exceeds the value's nesting depth (a value parsed from a
string of length n has depth at most n). -/
def pyReprFuel : Nat → Json → String
  | 0, _ => ""
  | fuel + 1, j =>
    match j with
    | .null => "None"
    | .bool b => if b then "True" else "False"
    | .num n => toString n
    | .str s => "'" ++ s ++ "'"
    | .arr xs =>
        "[" ++ String.intercalate ", " (xs.map (pyReprFuel fuel)) ++ "]"
    | .obj fs =>
        "\x7b" ++
          String.intercalate ", "
            (fs.map (fun p => "'" ++ p.1 ++ "': " ++ pyReprFuel fuel p.2)) ++
        "\x7d"

/-- Python `str` of a JSON-ish value: the string itself for strings,
`repr`-style rendering otherwise (with the same fuel convention as
`pyReprFuel`). -/
def pyStrFuel (fuel : Nat) : Json → String
  | .str s => s
  | v => pyReprFuel fuel v

/-! ## Confidence scoring and review policy (src/snap_ai/core/processor.py) -/

/-- `ConfidenceLevel` from src/snap_ai/models/document.py. -/
inductive ConfidenceLevel where
  | high : ConfidenceLevel
  | medium : ConfidenceLevel
  | low : ConfidenceLevel
deriving DecidableEq

/-- The `.value` string of a `ConfidenceLevel` enum member. -/
def ConfidenceLevel.value : ConfidenceLevel → String
  | .high => "high"
  | .medium => "medium"
  | .low => "low"

/-- `Processor._calculate_confidence` (processor.py lines 317-334): a data
completeness factor defaulting to 0.5, computed as the fraction of truthy
values when the dict is non-empty and has no "error" key, then the weighted
average `ml_confidence * 0.4 + data_completeness * 0.6` clamped to [0, 1].
Floats are modelled as exact rationals. -/
def calculate_confidence (ml_confidence : ℚ) (extracted_data : Dict) : ℚ :=
  let data_completeness : ℚ :=
    if !extracted_data.isEmpty && !(dHasKey extracted_data "error") then
      let non_empty_fields : ℚ := ((extracted_data.filter (fun p => pyTruthy p.2)).length : ℚ)
      let total_fields : ℚ := (extracted_data.length : ℚ)
      if total_fields > 0 then non_empty_fields / total_fields else 0.5
    else 0.5
  let overall_confidence := ml_confidence * 0.4 + data_completeness * 0.6
  min 1 (max 0 overall_confidence)

/-- `Processor._get_confidence_level` (processor.py lines 336-343), with the
configured `CONFIDENCE_THRESHOLD` passed explicitly. -/
def get_confidence_level (score : ℚ) (confidence_threshold : ℚ) : ConfidenceLevel :=
  if score ≥ 0.8 then .high
  else if score ≥ confidence_threshold then .medium
  else .low

/-- `Config.CONFIDENCE_THRESHOLD`'s default value (config.py: the fallback
`"0.6"` when the environment variable is unset). -/
def CONFIDENCE_THRESHOLD_default : ℚ := 0.6

/-! ## Backend selection (`Processor.__init__`, processor.py lines 35-67) -/

/-- `ExtractionMethod` member values from src/snap_ai/models/document.py
(lines 22-25): the strings a pydantic `ExtractionMethod` field accepts. -/
def extractionMethodValues : List String := ["ollama", "huggingface", "openai"]

/-- The backend-selection logic of `Processor.__init__` (processor.py lines
46-65), as a function of the outcomes of the three probes `_init_ollama`,
`_init_huggingface` and `_init_openai`: the first successful probe locks the
extraction method; when all three fail the constructor raises. -/
def processor_init (ollama_ok huggingface_ok openai_ok : Bool) : Except String String :=
  if ollama_ok then .ok "ollama"
  else if huggingface_ok then .ok "huggingface"
  else if openai_ok then .ok "openai"
  else .error "❌ No AI extraction method available!"

/-! ## A model of Python `json.loads` on the modelled fragment

JSON whitespace, `true`/`false`/`null`, double-quoted strings with the
standard escapes, integer numerals (non-integral numerals are outside the
modelled fragment), arrays and objects. An object's members are inserted
with `dictSet`, so a repeated key keeps its first position and its last
value, as in a Python dict built by `json.loads`. -/

/-- JSON whitespace as `json.loads` skips it. -/
def jsonWs (c : Char) : Bool :=
  c = ' ' || c = '\t' || c = '\n' || c = '\r'

def skipWs (cs : List Char) : List Char :=
  cs.dropWhile jsonWs

def hexVal (c : Char) : Option Nat :=
  if '0' ≤ c ∧ c ≤ '9' then some (c.toNat - '0'.toNat)
  else if 'a' ≤ c ∧ c ≤ 'f' then some (c.toNat - 'a'.toNat + 10)
  else if 'A' ≤ c ∧ c ≤ 'F' then some (c.toNat - 'A'.toNat + 10)
  else none

/-- The body of a JSON string literal, after the opening quote: the decoded
characters and the input after the closing quote. -/
def parseStrChars : List Char → Option (List Char × List Char)
  | [] => none
  | '"' :: rest => some ([], rest)
  | '\\' :: 'u' :: h1 :: h2 :: h3 :: h4 :: rest => do
      let a ← hexVal h1
      let b ← hexVal h2
      let c ← hexVal h3
      let d ← hexVal h4
      let (cs, rem) ← parseStrChars rest
      pure (Char.ofNat (((a * 16 + b) * 16 + c) * 16 + d) :: cs, rem)
  | '\\' :: e :: rest => do
      let decoded ←
        if e = '"' then some '"'
        else if e = '\\' then some '\\'
        else if e = '/' then some '/'
        else if e = 'b' then some (Char.ofNat 8)
        else if e = 'f' then some (Char.ofNat 12)
        else if e = 'n' then some '\n'
        else if e = 'r' then some '\r'
        else if e = 't' then some '\t'
        else none
      let (cs, rem) ← parseStrChars rest
      pure (decoded :: cs, rem)
  | c :: rest =>
      if c.toNat < 32 then none
      else do
        let (cs, rem) ← parseStrChars rest
        pure (c :: cs, rem)

/-- A JSON integer numeral: optional minus sign, digits without a redundant
leading zero; a following `.`, `e` or `E` (a non-integral numeral) is
outside the modelled fragment and rejected. -/
def parseIntNumeral (cs : List Char) : Option (Int × List Char) :=
  let (neg, body) := match cs with
    | '-' :: rest => (true, rest)
    | _ => (false, cs)
  let digits := body.takeWhile Char.isDigit
  let rest := body.dropWhile Char.isDigit
  if digits.isEmpty then none
  else if digits.length > 1 ∧ digits.head? = some '0' then none
  else match rest with
    | '.' :: _ => none
    | 'e' :: _ => none
    | 'E' :: _ => none
    | _ =>
      let n : Nat := digits.foldl (fun acc c => acc * 10 + (c.toNat - '0'.toNat)) 0
      some (if neg then -(n : Int) else (n : Int), rest)

mutual

/-- One JSON value at the head of the input (leading whitespace allowed). -/
def parseValue : Nat → List Char → Option (Json × List Char)
  | 0, _ => none
  | fuel + 1, cs =>
    match skipWs cs with
    | 't' :: 'r' :: 'u' :: 'e' :: rest => some (.bool true, rest)
    | 'f' :: 'a' :: 'l' :: 's' :: 'e' :: rest => some (.bool false, rest)
    | 'n' :: 'u' :: 'l' :: 'l' :: rest => some (.null, rest)
    | '"' :: rest => do
        let (body, rem) ← parseStrChars rest
        pure (.str (String.mk body), rem)
    | '[' :: rest => parseArrElems fuel (skipWs rest) []
    | '\x7b' :: rest => parseObjElems fuel (skipWs rest) []
    | other => do
        let (n, rest) ← parseIntNumeral other
        pure (.num n, rest)

/-- The elements of a JSON array, from just after `[` or after a comma
(leading whitespace already skipped). -/
def parseArrElems : Nat → List Char → List Json → Option (Json × List Char)
  | 0, _, _ => none
  | _ + 1, [], _ => none
  | fuel + 1, cs, acc =>
    match cs with
    | ']' :: rest => if acc.isEmpty then some (.arr [], rest) else none
    | _ => do
      let (v, rest) ← parseValue fuel cs
      match skipWs rest with
      | ',' :: rest2 => parseArrElems fuel (skipWs rest2) (acc ++ [v])
      | ']' :: rest2 => some (.arr (acc ++ [v]), rest2)
      | _ => none

/-- The members of a JSON object, from just after `\x7b` or after a comma
(leading whitespace already skipped). -/
def parseObjElems : Nat → List Char → Dict → Option (Json × List Char)
  | 0, _, _ => none
  | _ + 1, [], _ => none
  | fuel + 1, cs, acc =>
    match cs with
    | '\x7d' :: rest => if acc.isEmpty then some (.obj [], rest) else none
    | '"' :: rest => do
      let (key, rest1) ← parseStrChars rest
      match skipWs rest1 with
      | ':' :: rest2 => do
        let (v, rest3) ← parseValue fuel rest2
        let acc := dictSet acc (String.mk key) v
        match skipWs rest3 with
        | ',' :: rest4 => parseObjElems fuel (skipWs rest4) acc
        | '\x7d' :: rest4 => some (.obj acc, rest4)
        | _ => none
      | _ => none
    | _ => none

end

/-- Python `json.loads`: parse one JSON value and require only whitespace
after it (`Extra data` otherwise). `none` models a raised
`json.JSONDecodeError`. -/
def jsonLoads (s : String) : Option Json :=
  match parseValue (2 * s.length + 4) s.toList with
  | some (v, rest) => if (skipWs rest).isEmpty then some v else none
  | none => none

/-! ## Response parsing (`Processor._parse_json_response`, processor.py 301-315) -/

/-- Index of the first occurrence of a character, if any. -/
def idxOfChar (cs : List Char) (c : Char) : Option Nat :=
  match cs with
  | [] => none
  | d :: rest =>
      if d = c then some 0
      else (idxOfChar rest c).map (· + 1)

/-- Index of the last occurrence of a character, if any. -/
def lastIdxOfChar (cs : List Char) (c : Char) : Option Nat :=
  match cs with
  | [] => none
  | d :: rest =>
      match lastIdxOfChar rest c with
      | some n => some (n + 1)
      | none => if d = c then some 0 else none

/-- Python `s.find(c)`: the first index, or -1. -/
def pyFind (cs : List Char) (c : Char) : Int :=
  match idxOfChar cs c with
  | some n => n
  | none => -1

/-- Python `s.rfind(c)`: the last index, or -1. -/
def pyRfind (cs : List Char) (c : Char) : Int :=
  match lastIdxOfChar cs c with
  | some n => n
  | none => -1

/-- `Processor._parse_json_response`: slice the response from the first
`\x7b` to the last `\x7d` and try `json.loads` on it; on a missing brace or
a parse failure, return `\x7b"raw_response": response\x7d`. -/
def parse_json_response (response : String) : Json :=
  let cs := response.toList
  let start := pyFind cs '\x7b'
  let stop := pyRfind cs '\x7d' + 1
  if start ≠ -1 ∧ stop ≠ 0 then
    let json_str := String.mk ((cs.drop start.toNat).take (stop.toNat - start.toNat))
    match jsonLoads json_str with
    | some v => v
    | none => .obj [("raw_response", .str response)]
  else .obj [("raw_response", .str response)]

/-- The substring of `r` from its first `\x7b` to its last `\x7d`, when both
braces occur; stated independently of the -1 sentinels of `find`/`rfind`,
for comparison with `parse_json_response`. -/
def braceSlice (r : String) : Option String :=
  let cs := r.toList
  match idxOfChar cs '\x7b', lastIdxOfChar cs '\x7d' with
  | some i, some j => some (String.mk ((cs.drop i).take (j + 1 - i)))
  | _, _ => none

/-! ## Post-processing (`Processor._post_process_extracted_data`, processor.py 379-435) -/

/-- The fields that may hold item lists (processor.py line 383). -/
def item_fields : List String := ["items_purchased", "line_items", "items", "products"]

/-- `re.search(r'\[.*\]', raw)` for the one pattern the code uses: `.` does
not match a newline, so the match is the leftmost `[` that has a `]` later
on the same line, extended greedily to the last such `]`; `none` models a
failed search. -/
def reSearchBrackets : List Char → Option (List Char)
  | [] => none
  | '[' :: rest =>
      let seg := rest.takeWhile (fun c => c ≠ '\n')
      match lastIdxOfChar seg ']' with
      | some j => some ('[' :: seg.take (j + 1))
      | none => reSearchBrackets rest
  | _ :: rest => reSearchBrackets rest

/-- Python `str.strip(chars)` for a set of characters: remove them from both
ends. -/
def stripChars (cs : List Char) (set : List Char) : List Char :=
  ((cs.dropWhile (set.contains ·)).reverse.dropWhile (set.contains ·)).reverse

/-- The characters Python `str.strip()` (no argument) removes. -/
def pyIsSpace (c : Char) : Bool :=
  c = ' ' || c = '\t' || c = '\n' || c = '\r' || c = '\x0b' || c = '\x0c'

/-- Python `str.strip()`: remove whitespace from both ends. -/
def pyStrip (cs : List Char) : List Char :=
  ((cs.dropWhile pyIsSpace).reverse.dropWhile pyIsSpace).reverse

/-- Python `str.split(sep)` for a one-character separator: split at every
occurrence, keeping empty pieces. -/
def splitOnChar (sep : Char) : List Char → List (List Char)
  | [] => [[]]
  | c :: rest =>
      let groups := splitOnChar sep rest
      if c = sep then [] :: groups
      else
        match groups with
        | g :: gs => (c :: g) :: gs
        | [] => [[c]]

/-- The readable rendering of one parsed item (processor.py lines 403-420):
a dict item is summarised from its description/name, quantity, price and
total fields; anything else is `str(item)`. The fuel only establishes the
termination of the string rendering (see `pyReprFuel`). -/
def itemToReadable (fuel : Nat) (item : Json) : String :=
  match item with
  | .obj fs =>
      let desc := (dLookup fs "description").getD ((dLookup fs "name").getD (.str "Item"))
      let qty := (dLookup fs "quantity").getD ((dLookup fs "qty").getD (.num 1))
      let price := (dLookup fs "unit_price").getD ((dLookup fs "price").getD (.str ""))
      let total := (dLookup fs "total").getD ((dLookup fs "amount").getD (.str ""))
      let s := pyStrFuel fuel desc
      let s :=
        if pyTruthy qty && !(pyEqInt qty 1) then s ++ " (Qty: " ++ pyStrFuel fuel qty ++ ")"
        else s
      let s := if pyTruthy price then s ++ " @ " ++ pyStrFuel fuel price else s
      let s := if pyTruthy total then s ++ " = " ++ pyStrFuel fuel total else s
      s
  | _ => pyStrFuel fuel item

/-- `"\n".join(f"• \x7bitem\x7d" for item in items)`. -/
def bulletJoin (items : List String) : String :=
  String.intercalate "\n" (items.map (fun s => "• " ++ s))

/-- The `except (json.JSONDecodeError, AttributeError)` fallback of
`_post_process_extracted_data` (processor.py lines 426-433): when the string
is bracket-delimited, strip brackets and quotes, split on commas, and store
a bulleted list when at most five items remain. -/
def ppFallback (d : Dict) (field raw : String) : Dict :=
  let cs := raw.toList
  if cs.head? = some '[' ∧ cs.getLast? = some ']' then
    let cleaned := (stripChars cs ['[', ']']).filter (fun c => c ≠ '\'' ∧ c ≠ '"')
    let items :=
      ((splitOnChar ',' cleaned).map (fun g => String.mk (pyStrip g))).filter (· ≠ "")
    if items.length ≤ 5 then
      dictSet d field (.str (bulletJoin (items.take 5)))
    else d
  else d

/-- One iteration of the `for field in item_fields` loop of
`_post_process_extracted_data` (processor.py lines 385-433). -/
def ppStep (d : Dict) (field : String) : Dict :=
  match dLookup d field with
  | some (.str raw) =>
      match reSearchBrackets raw.toList with
      | some mcs =>
          match jsonLoads (String.mk mcs) with
          | some (.arr items) =>
              if items.length > 0 then
                let readable := items.map (itemToReadable (mcs.length + 1))
                dictSet (dictSet d field (.str (bulletJoin readable)))
                  (field ++ "_raw") (.str raw)
              else d
          | some _ => d
          | none => ppFallback d field raw
      | none => d
  | some _ => d
  | none => d

/-- `Processor._post_process_extracted_data`: the item-field loop applied to
the whole dict. -/
def post_process_extracted_data (extracted_data : Dict) : Dict :=
  item_fields.foldl ppStep extracted_data

/-! ## Pipeline orchestration (`Processor.process_document`, processor.py 164-224)

The pure core of one `process_document` run, from the classifier's output
and the extraction backend's raw result to the assembled record: steps 2.5
to 4 of the pipeline (post-process, score, level, review flag). -/

structure DocumentCoreResult where
  document_type : String
  ml_confidence : ℚ
  overall_confidence : ℚ
  confidence_level : String
  needs_human_review : Bool
  extracted_data : Dict

/-- `process_document` after extraction (processor.py lines 195-221):
post-process the extracted data, compute the overall confidence and its
level, and set `needs_human_review` exactly when the level is low. The
classifier's output and the backend's extracted dict are inputs; the
configured threshold is passed explicitly. -/
def process_document_core (ml_confidence : ℚ) (doc_type : String) (extracted : Dict)
    (confidence_threshold : ℚ) : DocumentCoreResult :=
  let extracted_data := post_process_extracted_data extracted
  let overall_confidence := calculate_confidence ml_confidence extracted_data
  let confidence_level := get_confidence_level overall_confidence confidence_threshold
  { document_type := doc_type
    ml_confidence := ml_confidence
    overall_confidence := overall_confidence
    confidence_level := confidence_level.value
    needs_human_review := decide (confidence_level = ConfidenceLevel.low)
    extracted_data := extracted_data }

/-! ## The prompt catalog (backend/src/core/prompt_loader.py) -/

/-- Association-list lookup for string-keyed tables. -/
def lookupStr {α : Type} : List (String × α) → String → Option α
  | [], _ => none
  | (k, v) :: rest, key => if k = key then some v else lookupStr rest key

/-- The loaded prompt catalog: the YAML document's `document_types` mapping
(doc_type → backend → template) and its `default` mapping (backend →
template), as `PromptLoader` reads them. -/
structure PromptCatalog where
  document_types : List (String × List (String × String))
  dflt : List (String × String)

/-- `PromptLoader.get_prompt` (prompt_loader.py lines 46-61): the exact
(doc_type, method) entry when it exists, else the `default` entry for the
method, else a synthesized fallback template embedding the doc_type. -/
def get_prompt (c : PromptCatalog) (doc_type method : String) : String :=
  let fallback :=
    match lookupStr c.dflt method with
    | some p => p
    | none => "Extract " ++ doc_type ++ " information from: \x7btext\x7d\nReturn JSON:"
  match lookupStr c.document_types doc_type with
  | some doc_prompts =>
      match lookupStr doc_prompts method with
      | some p => p
      | none => fallback
  | none => fallback

/-! ## A model of Python `str.format` on the fragment the code exercises

Literal text, `\x7b\x7b`/`\x7d\x7d` escapes, and plain keyword replacement
fields looked up among the supplied variables. The wider format
mini-language (attribute/index access, `!` conversions, `:` format specs)
is outside the modelled fragment and mapped to `valueError`; an empty or
all-digit field is positional and raises `IndexError` when, as here, no
positional arguments are supplied. -/

inductive PyFormatErr where
  | keyError (name : String) : PyFormatErr
  | valueError : PyFormatErr
  | indexError : PyFormatErr
deriving DecidableEq

/-- `str.format` over the template's characters. The fuel only establishes
termination: each step consumes at least one character, so
`template.length + 1` always suffices. -/
def pyFormatGo (vs : List (String × String)) : Nat → List Char → Except PyFormatErr (List Char)
  | 0, _ => .error .valueError
  | fuel + 1, cs =>
    match cs with
    | [] => .ok []
    | '\x7b' :: '\x7b' :: rest => (fun t => '\x7b' :: t) <$> pyFormatGo vs fuel rest
    | '\x7d' :: '\x7d' :: rest => (fun t => '\x7d' :: t) <$> pyFormatGo vs fuel rest
    | '\x7d' :: _ => .error .valueError
    | '\x7b' :: rest =>
        let field := rest.takeWhile (· ≠ '\x7d')
        match rest.dropWhile (· ≠ '\x7d') with
        | [] => .error .valueError
        | _ :: rest2 =>
            if field.contains '\x7b' then .error .valueError
            else if field.contains ':' || field.contains '!' then .error .valueError
            else if field.isEmpty || field.all Char.isDigit then .error .indexError
            else
              match lookupStr vs (String.mk field) with
              | some v => (fun t => v.toList ++ t) <$> pyFormatGo vs fuel rest2
              | none => .error (.keyError (String.mk field))
    | c :: rest => (fun t => c :: t) <$> pyFormatGo vs fuel rest

/-- Python `template.format(**vars)` on the modelled fragment. -/
def pyFormat (template : String) (vs : List (String × String)) : Except PyFormatErr String :=
  (fun t => String.mk t) <$> pyFormatGo vs (template.length + 1) template.toList

/-- Python `s.replace(pat, sub)`: replace every occurrence, left to right,
without overlap. The fuel only establishes termination (`s.length + 1`
always suffices); the code never calls this with an empty pattern. -/
def pyReplaceGo (pat sub : List Char) : Nat → List Char → List Char
  | 0, cs => cs
  | _ + 1, [] => []
  | fuel + 1, c :: rest =>
      if !pat.isEmpty && pat.isPrefixOf (c :: rest) then
        sub ++ pyReplaceGo pat sub fuel ((c :: rest).drop pat.length)
      else c :: pyReplaceGo pat sub fuel rest

def pyReplace (s pat sub : String) : String :=
  String.mk (pyReplaceGo pat.toList sub.toList (s.length + 1) s.toList)

/-- The two formatting variables `PromptLoader.format_prompt` supplies
(prompt_loader.py lines 68-71): the full text, and a preview of at most 300
characters. -/
def formatVars (text : String) : List (String × String) :=
  [("text", text),
   ("text_preview", if text.length > 300 then String.mk (text.toList.take 300) else text)]

/-- The body of `PromptLoader.format_prompt` (prompt_loader.py lines 63-78)
given the resolved template: `template.format(**format_vars)`, with a
`KeyError` caught and degraded to literal replacement of the two known
placeholder names; any other formatting error propagates. -/
def format_prompt_core (template text : String) : Except PyFormatErr String :=
  match pyFormat template (formatVars text) with
  | .ok s => .ok s
  | .error (.keyError _) =>
      .ok (pyReplace (pyReplace template "\x7btext\x7d" text)
            "\x7btext_preview\x7d" (String.mk (text.toList.take 300)))
  | .error e => .error e

/-- `PromptLoader.format_prompt`: resolve the template, then fill it. -/
def format_prompt (c : PromptCatalog) (doc_type method text : String) : Except PyFormatErr String :=
  format_prompt_core (get_prompt c doc_type method) text

/-! ## Text extraction from images (backend/src/core/textract_core.py 28-60) -/

/-- Does the list start with the pattern? -/
def startsWithL : List Char → List Char → Bool
  | _, [] => true
  | [], _ :: _ => false
  | c :: cs, p :: ps => c = p && startsWithL cs ps

/-- Python `pat in s`: substring containment. -/
def containsSubL : List Char → List Char → Bool
  | [], pat => pat.isEmpty
  | c :: cs, pat => startsWithL (c :: cs) pat || containsSubL cs pat

/-- What the optical character recognition step did for one accepted image:
either it returned recognized text, or opening/decoding the image raised an
exception with the given message (`str(e)`). -/
inductive OcrOutcome where
  | text (t : String) : OcrOutcome
  | exn (msg : String) : OcrOutcome

/-- The image branch of `extract_text_from_file` (textract_core.py lines
28-60), as a function of whether pytesseract/PIL import succeeds and of the
OCR outcome: empty or whitespace-only recognized text becomes the sentinel
"No text found in image"; an exception whose message carries a recognized
corruption signature becomes a user-facing description; any other exception
message becomes an "Unable to process this image" string; only a missing
OCR library raises (an `HTTPException`, modelled as `Except.error`). -/
def extract_text_from_file_image (pytesseract_ok : Bool) (ocr : OcrOutcome) :
    Except String String :=
  if pytesseract_ok then
    match ocr with
    | .text t =>
        .ok (if String.mk (pyStrip t.toList) ≠ "" then t else "No text found in image")
    | .exn error_msg =>
        .ok
          (if containsSubL error_msg.toList "Corrupt JPEG".toList ||
              containsSubL error_msg.toList "premature end".toList then
            "This image appears to be corrupted. Please try uploading a different image or retaking the photo."
          else "Unable to process this image: " ++ error_msg)
  else .error "pytesseract/PIL not installed for image processing"

/-! ## Batch processing (src/snap_ai/services/document_service.py 60-100)

`ProcessingResult` is a pydantic model (src/snap_ai/models/document.py lines
55-80): constructing one validates each enum-typed and bounded field, and a
bad value raises a `ValidationError`. `process_batch_documents` is modelled
over the per-document outcomes of `process_single_document` (a result, or
the message of the exception its upstream handling raised), which is where
the source's `try` block's behaviour enters. -/

/-- `DocumentType` member values (document.py lines 10-15). -/
def documentTypeValues : List String := ["invoice", "contract", "form", "receipt", "unknown"]

/-- `ConfidenceLevel` member values (document.py lines 17-20). -/
def confidenceLevelValues : List String := ["high", "medium", "low"]

structure ProcessingResult where
  document_type : String
  ml_confidence : ℚ
  overall_confidence : ℚ
  confidence_level : String
  extraction_method : String
  model_display_name : String
  processing_time : String
  needs_human_review : Bool
  extracted_data : Dict
  uploaded_file : Option String := none
  batch_index : Option Nat := none

/-- Pydantic validation of a `ProcessingResult` construction: every
enum-typed field must hold one of its enum's values and the two confidences
must lie in [0, 1]; otherwise a `ValidationError` is raised. -/
def mkProcessingResult (document_type : String) (ml_confidence overall_confidence : ℚ)
    (confidence_level extraction_method model_display_name processing_time : String)
    (needs_human_review : Bool) (extracted_data : Dict) (uploaded_file : Option String) :
    Except String ProcessingResult :=
  if document_type ∉ documentTypeValues then
    .error "ValidationError: document_type is not a valid DocumentType"
  else if ¬ (0 ≤ ml_confidence ∧ ml_confidence ≤ 1) then
    .error "ValidationError: ml_confidence must be in [0, 1]"
  else if ¬ (0 ≤ overall_confidence ∧ overall_confidence ≤ 1) then
    .error "ValidationError: overall_confidence must be in [0, 1]"
  else if confidence_level ∉ confidenceLevelValues then
    .error "ValidationError: confidence_level is not a valid ConfidenceLevel"
  else if extraction_method ∉ extractionMethodValues then
    .error "ValidationError: extraction_method is not a valid ExtractionMethod"
  else
    .ok
      { document_type := document_type
        ml_confidence := ml_confidence
        overall_confidence := overall_confidence
        confidence_level := confidence_level
        extraction_method := extraction_method
        model_display_name := model_display_name
        processing_time := processing_time
        needs_human_review := needs_human_review
        extracted_data := extracted_data
        uploaded_file := uploaded_file }

/-- The loop body of `process_batch_documents` (document_service.py lines
70-91): a successful document is appended with its batch index; a document
whose processing raised gets the synthetic failed result the `except`
handler constructs — `document_type=unknown, confidence 0,
confidence_level="low", extraction_method="none", needs_human_review=True,
extracted_data=\x7b"error": message\x7d`. An exception from that
construction itself propagates and aborts the batch. -/
def process_batch_documents_go :
    Nat → List (String × Except String ProcessingResult) → List ProcessingResult →
    Except String (List ProcessingResult)
  | _, [], acc => .ok acc
  | i, (filename, outcome) :: rest, acc =>
    match outcome with
    | .ok r => process_batch_documents_go (i + 1) rest (acc ++ [{ r with batch_index := some i }])
    | .error e =>
        match mkProcessingResult "unknown" 0 0 "low" "none" "Error" "0s" true
            [("error", .str e)] (some filename) with
        | .ok error_result =>
            process_batch_documents_go (i + 1) rest
              (acc ++ [{ error_result with batch_index := some i }])
        | .error v => .error v

structure BatchProcessingResult where
  total_documents : Nat
  successful : Nat
  failed : Nat
  results : List ProcessingResult

/-- `DocumentProcessingService.process_batch_documents` (document_service.py
lines 60-100) over the per-document outcomes: iterate the documents, then
report the total and the successful/failed counts by absence/presence of an
"error" key in each result's extracted_data. -/
def process_batch_documents (files : List (String × Except String ProcessingResult)) :
    Except String BatchProcessingResult :=
  match process_batch_documents_go 0 files [] with
  | .ok results =>
      .ok
        { total_documents := files.length
          successful := (results.filter (fun r => !(dHasKey r.extracted_data "error"))).length
          failed := (results.filter (fun r => dHasKey r.extracted_data "error")).length
          results := results }
  | .error v => .error v

/-! ## Definitions stated from the spec's words, for comparison with the code -/

/-- Completeness as §4.5 of the spec states it: the fraction of non-empty
(Python-truthy) values among the keys of `extracted_data`, or the fixed
default 0.5 when `extracted_data` is empty or contains an error field. -/
def completenessSpec (d : Dict) : ℚ :=
  if d.isEmpty ∨ dHasKey d "error" then 0.5
  else ((d.filter (fun p => pyTruthy p.2)).length : ℚ) / (d.length : ℚ)

/-- The exact (doc_type, method) entry of the prompt catalog, when one
exists. -/
def exactEntry (c : PromptCatalog) (doc_type method : String) : Option String :=
  match lookupStr c.document_types doc_type with
  | some doc_prompts => lookupStr doc_prompts method
  | none => none

/-- The condition under which `_post_process_extracted_data` stores a
`<field>_raw` sibling: the field holds a string whose bracket match parses
as a non-empty JSON array. -/
def ppSuccess (d : Dict) (field : String) : Prop :=
  ∃ raw mcs items, dLookup d field = some (.str raw) ∧
    reSearchBrackets raw.toList = some mcs ∧
    jsonLoads (String.mk mcs) = some (.arr items) ∧ items.length > 0

/-- A well-formed `ProcessingResult`, as `process_single_document` produces
one for a successfully processed document: used as the successful outcomes
of a concrete batch. -/
def sampleOkResult : ProcessingResult :=
  { document_type := "invoice"
    ml_confidence := 0.9
    overall_confidence := 0.85
    confidence_level := "high"
    extraction_method := "ollama"
    model_display_name := "Llama 2"
    processing_time := "0.10s"
    needs_human_review := false
    extracted_data := [("vendor_name", .str "Acme")]
    uploaded_file := some "a.txt" }

/-! ## Theorems -/

/-- C1: for every ml_confidence and extracted_data mapping, the overall
confidence equals `0.4 * ml_confidence + 0.6 * completeness` clamped to
[0, 1], where completeness is the fraction of non-empty values when
extracted_data is non-empty without an "error" key and 0.5 otherwise; in
particular for an empty mapping the result is `clamp(0.4 * ml + 0.3)`. -/
theorem calculate_confidence_spec :
    (∀ (ml : ℚ) (d : Dict),
      calculate_confidence ml d = min 1 (max 0 (0.4 * ml + 0.6 * completenessSpec d))) ∧
    (∀ ml : ℚ, calculate_confidence ml [] = min 1 (max 0 (0.4 * ml + 0.3))) := by
  have key : ∀ (ml : ℚ) (d : Dict),
      calculate_confidence ml d = min 1 (max 0 (0.4 * ml + 0.6 * completenessSpec d)) := by
    intro ml d
    unfold calculate_confidence completenessSpec
    by_cases h1 : d.isEmpty <;> by_cases h2 : dHasKey d "error" <;>
      simp only [h1, h2, Bool.not_true, Bool.not_false, Bool.and_self, Bool.true_and,
        Bool.false_and, Bool.and_false, Bool.and_true, ite_true, ite_false,
        Bool.false_eq_true, Bool.true_eq_false, or_self, or_true, true_or, or_false,
        false_or, if_true, if_false]
    · ring_nf
    · ring_nf
    · ring_nf
    · have hlen : (0 : ℚ) < (d.length : ℚ) := by
        have hne : d ≠ [] := by simpa [List.isEmpty_iff] using h1
        have : 0 < d.length := List.length_pos.mpr hne
        exact_mod_cast this
      rw [if_pos hlen]
      ring_nf
  exact ⟨key, fun ml => by rw [key ml []]; norm_num [completenessSpec]⟩

/-- C2: the confidence level is high exactly when the score is at least 0.8,
medium exactly when it is below 0.8 but at least the configured threshold
(whose default is 0.6), low otherwise; and in every record assembled by
`process_document`, needs_human_review holds exactly when the level is low. -/
theorem confidence_level_review_spec :
    (∀ s t : ℚ,
      (get_confidence_level s t = .high ↔ 0.8 ≤ s) ∧
      (get_confidence_level s t = .medium ↔ s < 0.8 ∧ t ≤ s) ∧
      (get_confidence_level s t = .low ↔ s < 0.8 ∧ s < t)) ∧
    CONFIDENCE_THRESHOLD_default = 0.6 ∧
    (∀ (ml : ℚ) (dt : String) (d : Dict) (t : ℚ),
      ((process_document_core ml dt d t).needs_human_review = true ↔
        (process_document_core ml dt d t).confidence_level = "low")) := by
  refine ⟨fun s t => ?_, rfl, fun ml dt d t => ?_⟩
  · unfold get_confidence_level
    split_ifs with hA hB
    · refine ⟨by simp [hA], ?_, ?_⟩ <;> simp <;> intro h <;> linarith
    · push_neg at hA
      refine ⟨by simp; linarith, by simp [hA, hB], ?_⟩
      simp
      intro h
      linarith
    · push_neg at hA hB
      refine ⟨by simp; linarith, ?_, by simp [hA, hB]⟩
      simp
      intro h
      linarith
  · unfold process_document_core
    cases hl : get_confidence_level (calculate_confidence ml (post_process_extracted_data d)) t <;>
      simp [hl, ConfidenceLevel.value]

/-- C3: construction probes ollama, then huggingface, then openai, locks the
extraction method to the first success, raises the fatal "no extraction
method available" error when all three fail, and on success the method is
one of the three backend names and never "none". -/
theorem processor_init_spec :
    (∀ h p : Bool, processor_init true h p = .ok "ollama") ∧
    (∀ p : Bool, processor_init false true p = .ok "huggingface") ∧
    processor_init false false true = .ok "openai" ∧
    processor_init false false false = .error "❌ No AI extraction method available!" ∧
    (∀ (o h p : Bool) (m : String),
      processor_init o h p = .ok m → m ∈ extractionMethodValues ∧ m ≠ "none") := by
  refine ⟨fun h p => rfl, fun p => rfl, rfl, rfl, fun o h p m hm => ?_⟩
  cases o <;> cases h <;> cases p <;>
    simp only [processor_init, if_true, if_false, Bool.false_eq_true] at hm <;>
    first
      | exact Except.noConfusion hm
      | (obtain rfl : _ = m := Except.ok.inj hm; exact ⟨by decide, by decide⟩)

/-- C3 witness: a successful construction (huggingface wins after ollama
fails) whose locked method is a backend name and not "none". -/
theorem processor_init_spec_witness :
    processor_init false true false = .ok "huggingface" ∧
    ("huggingface" ∈ extractionMethodValues ∧ "huggingface" ≠ "none") :=
  ⟨processor_init_spec.2.1 false,
   processor_init_spec.2.2.2.2 false true false "huggingface" (processor_init_spec.2.1 false)⟩

/-- Any batch containing a document whose upstream processing raised
aborts: the `except` handler's synthetic result fails pydantic validation
(`extraction_method="none"` is not an `ExtractionMethod` member), and that
`ValidationError` propagates out of the loop. -/
theorem process_batch_go_error_aborts :
    ∀ (files : List (String × Except String ProcessingResult)) (i : Nat)
      (acc : List ProcessingResult),
      (∃ p ∈ files, ∃ e, p.2 = Except.error e) →
      ∃ msg, process_batch_documents_go i files acc = .error msg := by
  intro files
  induction files with
  | nil =>
    rintro i acc ⟨p, hp, _⟩
    cases hp
  | cons hd tl ih =>
    rintro i acc ⟨p, hp, e, he⟩
    obtain ⟨fn, outcome⟩ := hd
    cases hp with
    | head =>
      rw [show outcome = Except.error e from he]
      exact ⟨_, rfl⟩
    | tail _ hmem =>
      cases outcome with
      | ok r => exact ih (i + 1) (acc ++ [{ r with batch_index := some i }]) ⟨p, hmem, e, he⟩
      | error e' => exact ⟨_, rfl⟩

/-- C4 (code_bug evaluation): the spec's batch scenario — three documents of
which the second raises on its unsupported extension — does not produce a
three-entry batch result; constructing the synthetic failed result raises a
`ValidationError` because `"none"` is not an `ExtractionMethod` member, and
the batch aborts. -/
theorem process_batch_aborts_on_error_document :
    process_batch_documents
      [("a.txt", .ok sampleOkResult),
       ("b.docx", .error "File type .docx not supported. Use: .txt, .pdf, .png, .jpg, .jpeg"),
       ("c.txt", .ok sampleOkResult)] =
      .error "ValidationError: extraction_method is not a valid ExtractionMethod" := rfl

/-- C5: the shared response parser slices from the first opening brace to
the last closing brace and parses that substring as JSON, returning the
parsed object on success and a raw_response wrapper when a brace is missing
or the slice does not parse; the spec's scenario input yields exactly the
embedded vendor object. -/
theorem parse_json_response_spec :
    (∀ r : String, braceSlice r = none →
      parse_json_response r = .obj [("raw_response", .str r)]) ∧
    (∀ r s : String, braceSlice r = some s →
      parse_json_response r =
        (match jsonLoads s with
         | some v => v
         | none => .obj [("raw_response", .str r)])) ∧
    parse_json_response "Here you go: \x7b\"vendor_name\": \"Acme\"\x7d thanks" =
      .obj [("vendor_name", .str "Acme")] := by
  refine ⟨fun r hr => ?_, fun r s hs => ?_, rfl⟩
  · unfold braceSlice at hr
    unfold parse_json_response
    rcases h1 : idxOfChar r.data '\x7b' with _ | i <;>
      rcases h2 : lastIdxOfChar r.data '\x7d' with _ | j <;>
      simp [String.toList, h1, h2, pyFind, pyRfind] at hr ⊢
  · unfold braceSlice at hs
    unfold parse_json_response
    rcases h1 : idxOfChar r.data '\x7b' with _ | i <;>
      rcases h2 : lastIdxOfChar r.data '\x7d' with _ | j <;>
      simp [String.toList, h1, h2, pyFind, pyRfind] at hs ⊢
    rw [if_neg (by omega : ¬((j : Int) + 1 = 0)), hs]

/-- C5 witness: a response without braces falls back to raw_response, and a
response whose brace slice is the empty object parses to it. -/
theorem parse_json_response_spec_witness :
    parse_json_response "no braces here" = .obj [("raw_response", .str "no braces here")] ∧
    parse_json_response "a\x7b\x7db" = .obj [] :=
  ⟨parse_json_response_spec.1 "no braces here" rfl,
   parse_json_response_spec.2.1 "a\x7b\x7db" "\x7b\x7d" rfl⟩

/-- C8: get_prompt resolves the exact (doc_type, method) catalog entry
first, then the default entry for the method, then a synthesized fallback
template embedding the doc_type. -/
theorem get_prompt_resolution_spec :
    (∀ (c : PromptCatalog) (d m tpl : String),
      exactEntry c d m = some tpl → get_prompt c d m = tpl) ∧
    (∀ (c : PromptCatalog) (d m tpl : String),
      exactEntry c d m = none → lookupStr c.dflt m = some tpl → get_prompt c d m = tpl) ∧
    (∀ (c : PromptCatalog) (d m : String),
      exactEntry c d m = none → lookupStr c.dflt m = none →
      get_prompt c d m = "Extract " ++ d ++ " information from: \x7btext\x7d\nReturn JSON:") := by
  refine ⟨fun c d m tpl h => ?_, fun c d m tpl h hd => ?_, fun c d m h hd => ?_⟩
  · unfold exactEntry at h
    unfold get_prompt
    rcases h1 : lookupStr c.document_types d with _ | dp <;> simp [h1] at h ⊢
    rcases h2 : lookupStr dp m with _ | p <;> simp [h2] at h ⊢
    exact h
  · unfold exactEntry at h
    unfold get_prompt
    rcases h1 : lookupStr c.document_types d with _ | dp <;> simp [h1] at h ⊢ <;>
      [skip; rcases h2 : lookupStr dp m with _ | p] <;> simp_all
  · unfold exactEntry at h
    unfold get_prompt
    rcases h1 : lookupStr c.document_types d with _ | dp <;> simp [h1] at h ⊢ <;>
      [skip; rcases h2 : lookupStr dp m with _ | p] <;> simp_all

/-- C8 witness: on a concrete catalog, the exact entry wins for (invoice,
ollama), the default entry serves (receipt, ollama), and (receipt, openai)
gets the synthesized fallback. -/
theorem get_prompt_resolution_spec_witness :
    get_prompt ⟨[("invoice", [("ollama", "A")])], [("ollama", "D")]⟩ "invoice" "ollama" = "A" ∧
    get_prompt ⟨[("invoice", [("ollama", "A")])], [("ollama", "D")]⟩ "receipt" "ollama" = "D" ∧
    get_prompt ⟨[("invoice", [("ollama", "A")])], [("ollama", "D")]⟩ "receipt" "openai" =
      "Extract receipt information from: \x7btext\x7d\nReturn JSON:" :=
  ⟨get_prompt_resolution_spec.1 ⟨[("invoice", [("ollama", "A")])], [("ollama", "D")]⟩
      "invoice" "ollama" "A" rfl,
   get_prompt_resolution_spec.2.1 ⟨[("invoice", [("ollama", "A")])], [("ollama", "D")]⟩
      "receipt" "ollama" "D" rfl rfl,
   get_prompt_resolution_spec.2.2 ⟨[("invoice", [("ollama", "A")])], [("ollama", "D")]⟩
      "receipt" "openai" rfl rfl⟩

/-- C7: format_prompt supplies the full text for both placeholders when the
text is shorter than 300 characters, and gives the preview placeholder
exactly the first 300 characters of longer text. -/
theorem format_prompt_preview_spec :
    (∀ (c : PromptCatalog) (d m text : String),
      format_prompt c d m text = format_prompt_core (get_prompt c d m) text) ∧
    (∀ text : String, text.length < 300 →
      formatVars text = [("text", text), ("text_preview", text)]) ∧
    (∀ text : String, 300 < text.length →
      formatVars text = [("text", text), ("text_preview", String.mk (text.toList.take 300))] ∧
      (String.mk (text.toList.take 300)).length = 300) := by
  refine ⟨fun c d m text => rfl, fun text h => ?_, fun text h => ?_⟩
  · unfold formatVars
    rw [if_neg (by omega)]
  · unfold formatVars
    rw [if_pos h]
    refine ⟨rfl, ?_⟩
    have hlen : text.length = text.toList.length := rfl
    show (text.toList.take 300).length = 300
    rw [List.length_take]
    omega

/-- C7 witness: a two-character text fills both placeholders identically,
and a 301-character text gets a 300-character preview. -/
theorem format_prompt_preview_spec_witness :
    formatVars "hi" = [("text", "hi"), ("text_preview", "hi")] ∧
    formatVars (String.mk (List.replicate 301 'a')) =
      [("text", String.mk (List.replicate 301 'a')),
       ("text_preview", String.mk ((String.mk (List.replicate 301 'a')).toList.take 300))] ∧
    (String.mk ((String.mk (List.replicate 301 'a')).toList.take 300)).length = 300 :=
  ⟨format_prompt_preview_spec.2.1 "hi" (by decide),
   (format_prompt_preview_spec.2.2 (String.mk (List.replicate 301 'a'))
      (by rw [String.length_mk, List.length_replicate]; omega)).1,
   (format_prompt_preview_spec.2.2 (String.mk (List.replicate 301 'a'))
      (by rw [String.length_mk, List.length_replicate]; omega)).2⟩

/-- C6 counterexample: a template consisting of a single unmatched opening
brace makes `str.format` raise `ValueError`, which `format_prompt` does not
catch (it catches only `KeyError`), so format_prompt raises instead of
returning a string. -/
theorem format_prompt_unmatched_brace_raises :
    format_prompt ⟨[], [("ollama", "\x7b")]⟩ "invoice" "ollama" "abc" =
      .error .valueError := rfl

/-- C6 (amended): format_prompt returns a string unless `str.format` fails
with an error other than `KeyError` (an unmatched brace, a positional
field), which propagates; when the failure is a `KeyError` — a template
referencing an unsupplied placeholder — it degrades to literal substring
replacement of the known placeholder names. -/
theorem format_prompt_keyerror_spec :
    (∀ template text : String,
      (∃ s, format_prompt_core template text = .ok s) ∨
      (∃ e, pyFormat template (formatVars text) = .error e ∧ (∀ n, e ≠ .keyError n) ∧
        format_prompt_core template text = .error e)) ∧
    (∀ (template text n : String),
      pyFormat template (formatVars text) = .error (.keyError n) →
      format_prompt_core template text =
        .ok (pyReplace (pyReplace template "\x7btext\x7d" text) "\x7btext_preview\x7d"
          (String.mk (text.toList.take 300)))) := by
  constructor
  · intro template text
    unfold format_prompt_core
    cases h : pyFormat template (formatVars text) with
    | ok s => exact .inl ⟨s, rfl⟩
    | error e =>
      cases e with
      | keyError n => exact .inl ⟨_, rfl⟩
      | valueError => exact .inr ⟨.valueError, rfl, fun n => by simp, rfl⟩
      | indexError => exact .inr ⟨.indexError, rfl, fun n => by simp, rfl⟩
  · intro template text n h
    unfold format_prompt_core
    rw [h]

/-- C6 witness: a template whose only placeholder is the unknown name foo
triggers the KeyError fallback and comes back unchanged by the literal
replacement of the two known placeholder names. -/
theorem format_prompt_keyerror_spec_witness :
    format_prompt_core "\x7bfoo\x7d" "hi" = .ok "\x7bfoo\x7d" := by
  have h := format_prompt_keyerror_spec.2 "\x7bfoo\x7d" "hi" "foo" rfl
  simpa using h

/-- C9: with the OCR stack importable, the image branch of text extraction
always returns a string: whitespace-only recognized text becomes the fixed
"No text found in image" sentinel, and a decode error whose message carries
a recognized corruption signature becomes the user-facing corruption
description instead of a raised error. -/
theorem extract_text_image_spec :
    (∀ ocr : OcrOutcome, ∃ s : String, extract_text_from_file_image true ocr = .ok s) ∧
    (∀ t : String, t.toList.all pyIsSpace = true →
      extract_text_from_file_image true (.text t) = .ok "No text found in image") ∧
    (∀ m : String,
      (containsSubL m.toList "Corrupt JPEG".toList ||
        containsSubL m.toList "premature end".toList) = true →
      extract_text_from_file_image true (.exn m) =
        .ok "This image appears to be corrupted. Please try uploading a different image or retaking the photo.") := by
  refine ⟨fun ocr => ?_, fun t ht => ?_, fun m hm => ?_⟩
  · cases ocr with
    | text t => exact ⟨_, rfl⟩
    | exn m => exact ⟨_, rfl⟩
  · unfold extract_text_from_file_image
    simp only [String.toList] at ht
    have h1 : t.data.dropWhile pyIsSpace = [] :=
      List.dropWhile_eq_nil_iff.mpr (fun x hx => List.all_eq_true.mp ht x hx)
    have hstrip : pyStrip t.data = [] := by
      unfold pyStrip
      rw [h1]
      simp
    simp only [String.toList, hstrip]
    simp
  · unfold extract_text_from_file_image
    simp only [String.toList] at hm
    simp only [String.toList]
    simp [hm]

/-- C9 witness: a whitespace-only OCR result yields the sentinel, and a
"Corrupt JPEG" decode message yields the corruption description. -/
theorem extract_text_image_spec_witness :
    extract_text_from_file_image true (.text " \n\t") = .ok "No text found in image" ∧
    extract_text_from_file_image true (.exn "Corrupt JPEG data: premature end of data segment") =
      .ok "This image appears to be corrupted. Please try uploading a different image or retaking the photo." :=
  ⟨extract_text_image_spec.2.1 " \n\t" (by decide),
   extract_text_image_spec.2.2 "Corrupt JPEG data: premature end of data segment" (by decide)⟩

/-- Looking a key up after a Python dict assignment: the assigned key maps
to the new value, every other key is untouched. -/
theorem dLookup_dictSet (d : Dict) (key : String) (v : Json) (k : String) :
    dLookup (dictSet d key v) k = if k = key then some v else dLookup d k := by
  induction d with
  | nil =>
    by_cases h : k = key
    · subst h
      simp [dictSet, dLookup]
    · rw [if_neg h]
      simp only [dictSet, dLookup]
      rw [if_neg (fun e => h e.symm)]
  | cons hd tl ih =>
    obtain ⟨k', w⟩ := hd
    by_cases a : k' = key
    · subst a
      simp only [dictSet, if_pos rfl, dLookup]
      by_cases b : k' = k
      · rw [if_pos b, if_pos b.symm]
      · rw [if_neg b, if_neg (fun e => b e.symm), if_neg b]
    · simp only [dictSet, if_neg a, dLookup]
      by_cases b : k' = k
      · subst b
        rw [if_pos rfl, if_neg (fun e => a e), if_pos rfl]
      · rw [if_neg b, if_neg b, ih]

/-- The comma-split fallback touches no key other than the field itself. -/
theorem ppFallback_frame (d : Dict) (f raw k : String) (h1 : k ≠ f) :
    dLookup (ppFallback d f raw) k = dLookup d k := by
  unfold ppFallback
  dsimp only
  split_ifs <;> try rfl
  rw [dLookup_dictSet, if_neg h1]

/-- One item-field iteration touches no key other than the field and its
`_raw` sibling. -/
theorem ppStep_frame (d : Dict) (f k : String) (h1 : k ≠ f) (h2 : k ≠ f ++ "_raw") :
    dLookup (ppStep d f) k = dLookup d k := by
  unfold ppStep
  split <;> try rfl
  split <;> try rfl
  split
  · split
    · rw [dLookup_dictSet, if_neg h2, dLookup_dictSet, if_neg h1]
    · rfl
  · rfl
  · exact ppFallback_frame d f _ k h1

theorem ppFallback_keeps (d : Dict) (f raw k : String) (h : (dLookup d k).isSome = true) :
    (dLookup (ppFallback d f raw) k).isSome = true := by
  unfold ppFallback
  dsimp only
  split_ifs <;> try exact h
  rw [dLookup_dictSet]
  by_cases hk : k = f <;> simp [hk, h]

/-- One item-field iteration never removes a key. -/
theorem ppStep_keeps (d : Dict) (f k : String) (h : (dLookup d k).isSome = true) :
    (dLookup (ppStep d f) k).isSome = true := by
  unfold ppStep
  split <;> try exact h
  split <;> try exact h
  split
  · split
    · rw [dLookup_dictSet]
      by_cases hk2 : k = f ++ "_raw"
      · simp [hk2]
      · rw [if_neg hk2, dLookup_dictSet]
        by_cases hk1 : k = f <;> simp [hk1, h]
    · exact h
  · exact h
  · exact ppFallback_keeps d f _ k h

theorem ppFallback_new (d : Dict) (f raw k : String)
    (h : (dLookup (ppFallback d f raw) k).isSome = true) :
    (dLookup d k).isSome = true ∨ k = f := by
  unfold ppFallback at h
  dsimp only at h
  revert h
  split_ifs <;> intro h <;> try exact .inl h
  rw [dLookup_dictSet] at h
  by_cases hk : k = f
  · exact .inr hk
  · rw [if_neg hk] at h
    exact .inl h

/-- One item-field iteration adds at most the `_raw` sibling, and only when
the field's string value contains a bracket match that parses as a
non-empty JSON array. -/
theorem ppStep_new (d : Dict) (f k : String)
    (h : (dLookup (ppStep d f) k).isSome = true) :
    (dLookup d k).isSome = true ∨ (k = f ++ "_raw" ∧ ppSuccess d f) := by
  unfold ppStep at h
  revert h
  split <;> intro h <;> try exact .inl h
  next raw heq =>
    revert h
    split <;> intro h <;> try exact .inl h
    next mcs heq2 =>
      revert h
      split <;> intro h
      · next items heq3 =>
          revert h
          split_ifs with hlen <;> intro h
          · rw [dLookup_dictSet] at h
            by_cases hk2 : k = f ++ "_raw"
            · exact .inr ⟨hk2, raw, mcs, items, heq, heq2, heq3, hlen⟩
            · rw [if_neg hk2, dLookup_dictSet] at h
              by_cases hk1 : k = f
              · subst hk1
                rw [heq]
                exact .inl rfl
              · rw [if_neg hk1] at h
                exact .inl h
          · exact .inl h
      · exact .inl h
      · rcases ppFallback_new d f raw k h with h' | rfl
        · exact .inl h'
        · rw [heq]
          exact .inl rfl

theorem ppSuccess_congr (d' d'' : Dict) (f : String)
    (he : dLookup d' f = dLookup d'' f) (h : ppSuccess d' f) : ppSuccess d'' f := by
  obtain ⟨raw, mcs, items, h1, h2, h3, h4⟩ := h
  exact ⟨raw, mcs, items, he ▸ h1, h2, h3, h4⟩

/-- C10 (amended): post-processing leaves every key outside the list-like
set and outside their `_raw` siblings unchanged, never removes a key, and
the only keys it adds (or overwrites, per the counterexample) are
`<field>_raw` siblings of a list-like field whose string value contained a
parseable non-empty embedded JSON array. -/
theorem post_process_frame_spec :
    ∀ (d : Dict) (k : String),
      (k ∉ item_fields → (∀ f ∈ item_fields, k ≠ f ++ "_raw") →
        dLookup (post_process_extracted_data d) k = dLookup d k) ∧
      ((dLookup d k).isSome = true →
        (dLookup (post_process_extracted_data d) k).isSome = true) ∧
      ((dLookup (post_process_extracted_data d) k).isSome = true →
        (dLookup d k).isSome = true ∨
          ∃ f ∈ item_fields, k = f ++ "_raw" ∧ ppSuccess d f) := by
  intro d k
  have hPP : post_process_extracted_data d =
      ppStep (ppStep (ppStep (ppStep d "items_purchased") "line_items") "items") "products" := rfl
  refine ⟨fun hk hkr => ?_, fun h => ?_, fun h => ?_⟩
  · have hne : k ≠ "items_purchased" ∧ k ≠ "line_items" ∧ k ≠ "items" ∧ k ≠ "products" := by
      simpa [item_fields, not_or] using hk
    rw [hPP,
      ppStep_frame _ _ _ hne.2.2.2 (hkr "products" (by decide)),
      ppStep_frame _ _ _ hne.2.2.1 (hkr "items" (by decide)),
      ppStep_frame _ _ _ hne.2.1 (hkr "line_items" (by decide)),
      ppStep_frame _ _ _ hne.1 (hkr "items_purchased" (by decide))]
  · rw [hPP]
    exact ppStep_keeps _ _ _ (ppStep_keeps _ _ _ (ppStep_keeps _ _ _ (ppStep_keeps _ _ _ h)))
  · rw [hPP] at h
    have t_line : dLookup (ppStep d "items_purchased") "line_items" = dLookup d "line_items" :=
      ppStep_frame _ _ _ (by decide) (by decide)
    have t_items :
        dLookup (ppStep (ppStep d "items_purchased") "line_items") "items" =
          dLookup d "items" := by
      rw [ppStep_frame _ _ _ (by decide) (by decide), ppStep_frame _ _ _ (by decide) (by decide)]
    have t_products :
        dLookup (ppStep (ppStep (ppStep d "items_purchased") "line_items") "items") "products" =
          dLookup d "products" := by
      rw [ppStep_frame _ _ _ (by decide) (by decide), ppStep_frame _ _ _ (by decide) (by decide),
        ppStep_frame _ _ _ (by decide) (by decide)]
    rcases ppStep_new _ _ _ h with h | ⟨hk, hs⟩
    · rcases ppStep_new _ _ _ h with h | ⟨hk, hs⟩
      · rcases ppStep_new _ _ _ h with h | ⟨hk, hs⟩
        · rcases ppStep_new _ _ _ h with h | ⟨hk, hs⟩
          · exact .inl h
          · exact .inr ⟨"items_purchased", by decide, hk, hs⟩
        · exact .inr ⟨"line_items", by decide, hk, ppSuccess_congr _ _ _ t_line hs⟩
      · exact .inr ⟨"items", by decide, hk, ppSuccess_congr _ _ _ t_items hs⟩
    · exact .inr ⟨"products", by decide, hk, ppSuccess_congr _ _ _ t_products hs⟩

/-- C10 counterexample: on a mapping that already holds an `items_raw` key —
a key outside the list-like set — post-processing overwrites its value with
the raw string of the sibling `items` field, so values outside the
list-like set are not all left unchanged. -/
theorem post_process_overwrites_raw_sibling :
    "items_raw" ∉ item_fields ∧
    dLookup [("items", Json.str "[1, 2]"), ("items_raw", Json.str "x")] "items_raw" =
      some (Json.str "x") ∧
    dLookup (post_process_extracted_data
        [("items", Json.str "[1, 2]"), ("items_raw", Json.str "x")]) "items_raw" =
      some (Json.str "[1, 2]") ∧
    (Json.str "[1, 2]" : Json) ≠ Json.str "x" := by
  refine ⟨by decide, rfl, rfl, fun h => ?_⟩
  have := Json.str.inj h
  exact absurd this (by decide)

/-- C10 witness: a mapping with a single ordinary key passes through
post-processing unchanged at that key. -/
theorem post_process_frame_spec_witness :
    dLookup (post_process_extracted_data [("vendor", Json.str "Acme")]) "vendor" =
      dLookup [("vendor", Json.str "Acme")] "vendor" :=
  (post_process_frame_spec [("vendor", Json.str "Acme")] "vendor").1 (by decide) (by decide)
